import Mathlib

/- A verification development for a compiler from a policy engine's
partial-evaluation output (residual query sets) to SQL boolean predicates.

The development shallowly embeds:
- the SQL AST and its text-generation protocol (the sqlast package),
- the equality double-dispatch protocol (sqlast/equality.go and the sqlast
  number node),
- the recursive-descent compiler over the policy engine's residual tree
  (ConvertRegoAst, convertQuery, convertExpression, convertCall, convertTerms,
  convertTerm).

Details the source delegates to external code (string formatting of
diagnostics, the upstream engine's term printer and set ordering, and sqlast
node variants whose defining files are not among the given sources) are
modelled explicitly; each such definition carries a doc comment identifying
what is modelled.
-/

/-- SqlNode is the universal SQL AST element (the sqlast Node interface).
The variants follow the spec's closed set: scalar literals (boolean, string,
number), the array literal, equality, membership, conjunction, disjunction and
the pre-rendered column reference produced by the variable converter. The
equality fields (Left, Right, Not) and the number fields (Source, Value) are
taken from the source files; the remaining variants are modelled from the
spec, since their defining files are not among the given sources. -/
inductive SqlNode where
  | bool (b : Bool)
  | str (s : String)
  | num (source : String) (value : String)
  | array (source : String) (elems : List SqlNode)
  | equality (notEq : Bool) (left right : SqlNode)
  | memberOf (element collection : SqlNode)
  | conj (source : String) (xs : List SqlNode)
  | disj (source : String) (xs : List SqlNode)
  | column (sql : String) (boolTyped : Bool)

/-- NodeKind identifies the canonical kind of a node: the concrete type of the
value returned by the UseAs method, which drives the double-dispatch type
switches. -/
inductive NodeKind where
  | boolKind
  | strKind
  | numKind
  | arrayKind
  | equalityKind
  | memberKind
  | conjKind
  | disjKind
  | columnKind
deriving DecidableEq

/-- UseAs gives each node its canonical kind. The number and equality cases
are from the source (AstNumber.UseAs returns AstNumber, equality.UseAs returns
equality). The rest are modelled from the spec: a boolean-typed column
reference declares the boolean canonical kind (it renders as a boolean-valued
expression); every other variant is its own kind. -/
def UseAs : SqlNode → NodeKind
  | .bool _ => .boolKind
  | .str _ => .strKind
  | .num _ _ => .numKind
  | .array _ _ => .arrayKind
  | .equality _ _ _ => .equalityKind
  | .memberOf _ _ => .memberKind
  | .conj _ _ => .conjKind
  | .disj _ _ => .disjKind
  | .column _ b => if b then .boolKind else .columnKind

/-- NodeKind.isBooleanNode states whether the kind-representative value
returned by UseAs implements the BooleanNode interface; it decides the second
case of the type switch in equality.EqualsSQLString. The equality kind is from
the source (equality implements BooleanNode). The boolean, membership,
conjunction and disjunction kinds are modelled from the spec (boolean-valued
node variants). -/
def NodeKind.isBooleanNode : NodeKind → Bool
  | .boolKind => true
  | .equalityKind => true
  | .memberKind => true
  | .conjKind => true
  | .disjKind => true
  | _ => false

/-- isBooleanNode states whether a concrete node implements the BooleanNode
interface; it decides the type assertions in convertExpression and
ConvertRegoAst. The equality case is from the source. The boolean literal,
membership, conjunction, disjunction and column cases are modelled from the
spec and the repository's tests: a boolean-typed column used as a bare term
compiles, a string-typed column used bare is an error. -/
def isBooleanNode : SqlNode → Bool
  | .bool _ => true
  | .equality _ _ _ => true
  | .memberOf _ _ => true
  | .conj _ _ => true
  | .disj _ _ => true
  | .column _ b => b
  | _ => false

/-- GenError is the structured generation error recorded by the equality
renderer: the Go dynamic type names of the two operands and the attempted
operator, as produced by fmt.Errorf with the format
"unsupported equality: %T %s %T". -/
structure GenError where
  leftType : String
  op : String
  rightType : String
deriving DecidableEq

/-- SQLGenerator is the error-accumulating generation context threaded through
every render call. Modelled from the spec: its defining file is not among the
given sources; the spec specifies a context holding a list of generation
errors that renders append to. -/
structure SQLGenerator where
  errors : List GenError
deriving DecidableEq

/-- SQLGenerator.AddError appends a structured error to the context. Modelled
from the spec: rendering failures append to the context's error list. -/
def SQLGenerator.AddError (g : SQLGenerator) (e : GenError) : SQLGenerator :=
  ⟨g.errors ++ [e]⟩

/-- equalsOp renders the comparison operator, negated or not
(sqlast/equality.go). -/
def equalsOp (nt : Bool) : String := if nt then "!=" else "="

/-- kindName renders the Go dynamic type name of a node, as the %T format verb
does in the equality error message. The AstNumber and equality names are from
the source files; the other names are modelled from the spec's variant list. -/
def kindName : SqlNode → String
  | .bool _ => ("sqlast.AstBoolean")
  | .str _ => ("sqlast.AstString")
  | .num _ _ => ("sqlast.AstNumber")
  | .array _ _ => ("sqlast.AstArray")
  | .equality _ _ _ => ("sqlast.equality")
  | .memberOf _ _ => ("sqlast.memberOf")
  | .conj _ _ => ("sqlast.boolAnd")
  | .disj _ _ => ("sqlast.boolOr")
  | .column _ _ => ("sqlast.column")

/-- SqlNode.sizeOf_pos: every node has positive size (used by the termination
measures of the render functions). -/
def SqlNode.sizeOf_pos : ∀ n : SqlNode, 0 < sizeOf n := by
  intro n
  cases n <;> simp

mutual
/-- SQLString renders a node to SQL text. The source signature is
SQLString(cfg *SQLGenerator) string, where cfg is mutated only by appending
errors and is never read; it is therefore embedded in writer style, returning
the rendered text together with the list of errors this render appends, in
order of occurrence (SQLStringWith below recovers the stateful signature).
The equality case is from sqlast/equality.go: try the left operand's
comparison logic, then the right operand's with operands swapped, and on
double failure record the structured error and return the sentinel
"EqualityError". The number case is from the sqlast number file (the value
text verbatim). The boolean, string, array, membership, conjunction,
disjunction and column cases are modelled from the spec: literals and the
pre-rendered column fragment render directly, arrays render as a SQL array
constructor, conjunction and disjunction join with AND and OR; membership is
rendered in its scalar form here, its array-overlap branch depending on the
declared-type registry that is not among the given sources (no theorem below
depends on the membership rendering). -/
def SQLString : SqlNode → String × List GenError
  | .bool b => (if b then ("true") else ("false"), [])
  | .str s => ("\x27" ++ s ++ "\x27", [])
  | .num _ v => (v, [])
  | .array _ elems =>
    match SQLStringList elems with
    | (ss, es) => ("ARRAY[" ++ String.intercalate (", ") ss ++ "]", es)
  | .equality nt l r =>
    match EqualsSQLString l nt r with
    | some (v, es) => (v, es)
    | none =>
      match EqualsSQLString r nt l with
      | some (v, es) => (v, es)
      | none => (("EqualityError"), [⟨kindName l, equalsOp nt, kindName r⟩])
  | .memberOf e c =>
    match SQLString e, SQLString c with
    | (s1, e1), (s2, e2) => (s1 ++ " = ANY(" ++ s2 ++ ")", e1 ++ e2)
  | .conj _ xs =>
    match SQLStringList xs with
    | (ss, es) => (String.intercalate (" AND ") ss, es)
  | .disj _ xs =>
    match SQLStringList xs with
    | (ss, es) => (String.intercalate (" OR ") ss, es)
  | .column sql _ => (sql, [])
termination_by n => 2 * sizeOf n + 1
decreasing_by
  all_goals (try simp_arith)
  all_goals omega

/-- SQLStringList renders a list of nodes in order, collecting the rendered
texts and concatenating the appended errors (the render loop over array,
conjunction and disjunction children). -/
def SQLStringList : List SqlNode → List String × List GenError
  | [] => ([], [])
  | x :: xs =>
    match SQLString x, SQLStringList xs with
    | (s, e), (ss, es) => (s :: ss, e ++ es)
termination_by xs => 2 * sizeOf xs
decreasing_by
  all_goals simp_arith

/-- EqualsSQLString is the SupportsEquality dispatch: given the receiver, the
negation flag and the other operand, either render the comparison (together
with appended errors) or report that this order is unsupported (none). The
number receiver (from the sqlast number file) supports comparison only against
the number kind, via basicSQLEquality. The equality receiver (from
sqlast/equality.go) switches on the other operand's canonical kind: against
the boolean kind it renders (self) op other, against any kind implementing
BooleanNode it renders (self) op (other), and anything else is unsupported.
All other receivers are unsupported: their SupportsEquality implementations,
if any, are in files not among the given sources, and no theorem below
depends on them. -/
def EqualsSQLString : SqlNode → Bool → SqlNode → Option (String × List GenError)
  | .num src v, nt, other =>
    match UseAs other with
    | .numKind => some (basicSQLEquality nt (.num src v) other)
    | _ => none
  | .equality nt0 l r, nt, other =>
    match UseAs other with
    | .boolKind =>
      match SQLString (.equality nt0 l r), SQLString other with
      | (s1, e1), (s2, e2) =>
        some (("(" ++ s1 ++ ")") ++ " " ++ equalsOp nt ++ " " ++ s2, e1 ++ e2)
    | k =>
      if k.isBooleanNode then
        match SQLString (.equality nt0 l r), SQLString other with
        | (s1, e1), (s2, e2) =>
          some (("(" ++ s1 ++ ")") ++ " " ++ equalsOp nt ++ " " ++
            ("(" ++ s2 ++ ")"), e1 ++ e2)
      else none
  | _, _, _ => none
termination_by self _ other => 2 * (sizeOf self + sizeOf other) + 1
decreasing_by
  all_goals (try simp_arith)
  all_goals
    first
      | omega
      | (have hpos := SqlNode.sizeOf_pos other
         omega)

/-- basicSQLEquality renders a op b with both sides rendered plainly
(sqlast/equality.go). -/
def basicSQLEquality (nt : Bool) (a b : SqlNode) : String × List GenError :=
  match SQLString a, SQLString b with
  | (s1, e1), (s2, e2) => (s1 ++ " " ++ equalsOp nt ++ " " ++ s2, e1 ++ e2)
termination_by 2 * (sizeOf a + sizeOf b)
decreasing_by
  all_goals (try simp_arith)
  all_goals
    first
      | omega
      | (have h1 := SqlNode.sizeOf_pos a
         have h2 := SqlNode.sizeOf_pos b
         omega)
end

/-- SQLStringWith is the source's stateful render signature SQLString(cfg):
render the node and append this render's errors to the caller's generation
context. Rendering only ever appends to the context (the spec's purity
invariant), so the stateful form is the writer form plus an append. -/
def SQLStringWith (n : SqlNode) (cfg : SQLGenerator) : String × SQLGenerator :=
  ((SQLString n).1, ⟨cfg.errors ++ (SQLString n).2⟩)

/-- RegoValue is the shallow embedding of the policy engine's term values
(the ast.Value interface of the upstream engine): variable, reference (a list
of sub-terms), string, number (decimal text kept verbatim), boolean, array,
object, set and nested call; other stands for the remaining upstream value
kinds (comprehensions), which the compiler rejects in its default case. The
call constructor carries the operator term and then the argument terms,
matching the upstream operator-first call representation. -/
inductive RegoValue where
  | var (name : String)
  | ref (terms : List RegoValue)
  | str (s : String)
  | num (n : String)
  | bool (b : Bool)
  | array (elems : List RegoValue)
  | object
  | set (elems : List RegoValue)
  | call (op : RegoValue) (args : List RegoValue)
  | other (desc : String)

mutual
/-- rsize is the termination measure for the converter: a weight on terms
under which replacing a set by the array of its ordered elements strictly
decreases. -/
def rsize : RegoValue → Nat
  | .var _ => 1
  | .ref ts => rsizeList ts + 1
  | .str _ => 1
  | .num _ => 1
  | .bool _ => 1
  | .array ts => rsizeList ts + 1
  | .object => 1
  | .set ts => rsizeList ts + 2
  | .call op args => rsize op + rsizeList args + 2
  | .other _ => 1

/-- rsizeList sums rsize over a list of terms. -/
def rsizeList : List RegoValue → Nat
  | [] => 0
  | t :: ts => rsize t + rsizeList ts + 1
end

/-- rsize_pos: every term has positive weight. -/
def rsize_pos : ∀ t : RegoValue, 0 < rsize t := by
  intro t
  cases t <;> simp [rsize]

/-- rsizeList_perm: the weight of a list of terms is invariant under
permutation. -/
def rsizeList_perm : ∀ {l₁ l₂ : List RegoValue}, l₁.Perm l₂ →
    rsizeList l₁ = rsizeList l₂ := by
  intro l₁ l₂ h
  induction h with
  | nil => rfl
  | cons x _ ih => simp [rsizeList, ih]
  | swap x y l => simp [rsizeList]; omega
  | trans h₁ h₂ ih₁ ih₂ => omega

mutual
/-- termString prints a term, standing for the upstream engine's String
methods, which the compiler uses only to build diagnostic messages and
RegoSource annotations and to read a call's operator name. Modelled from the
spec: the upstream engine is an external collaborator; printing follows its
conventions (references print as dotted paths with bracketed non-string
segments, arrays bracket their comma-separated elements, sets brace
theirs). -/
def termString : RegoValue → String
  | .var name => name
  | .ref [] => ""
  | .ref (t :: ts) => termString t ++ refTailString ts
  | .str s => "\"" ++ s ++ "\""
  | .num n => n
  | .bool b => if b then ("true") else ("false")
  | .array ts => "[" ++ termStringList ts ++ "]"
  | .object => "\x7b...\x7d"
  | .set ts => "\x7b" ++ termStringList ts ++ "\x7d"
  | .call op args => termString op ++ "(" ++ termStringList args ++ ")"
  | .other desc => desc

/-- refTailString prints the non-head segments of a reference: string
segments as dotted fields, any other segment bracketed. -/
def refTailString : List RegoValue → String
  | [] => ""
  | .str s :: ts => "." ++ s ++ refTailString ts
  | t :: ts => "[" ++ termString t ++ "]" ++ refTailString ts

/-- termStringList prints comma-separated terms. -/
def termStringList : List RegoValue → String
  | [] => ""
  | [t] => termString t
  | t :: ts => termString t ++ ", " ++ termStringList ts
end

/-- sortTerms orders a set's elements deterministically, standing for the
upstream engine's Set.Sorted method (elements ordered by the engine's total
term order and returned as an array value). Modelled from the spec: the
upstream engine is external; the particular total order is irrelevant to the
claims, which use only that the ordering is a deterministic function of the
elements. Here elements are ordered by their printed form. -/
def sortTerms (ts : List RegoValue) : List RegoValue :=
  List.insertionSort (fun a b => termString a ≤ termString b) ts

/-- rsizeList_sortTerms: ordering a set's elements preserves their weight. -/
def rsizeList_sortTerms : ∀ ts : List RegoValue,
    rsizeList (sortTerms ts) = rsizeList ts := fun ts =>
  rsizeList_perm (List.perm_insertionSort _ ts)

/-- ConvertConfig carries the variable converter. The source field has the
interface type sqlast.VariableMatcher, whose ConvertVariable method takes the
reference and returns a node and a success flag; a matcher is embedded as a
function from the reference's segment list to an optional node, and the nil
interface as none. -/
structure ConvertConfig where
  VariableConverter : Option (List RegoValue → Option SqlNode)

mutual
/-- convertTerm converts a policy term to a SQL AST node, following the
source's switch on the term's concrete shape: a bare variable is unsupported;
a reference resolves through the variable converter (error when the reference
is empty, when no converter was configured, or when the converter declines);
string, number and boolean literals convert directly; an array converts
elementwise (the sqlast.Array constructor, whose file is not among the given
sources, is modelled from the spec as always succeeding); an object is
unsupported; a set converts by recursing on the term rebuilt from its
deterministically ordered elements as an array; a nested call recurses into
convertCall; every remaining shape is unsupported. -/
def convertTerm (cfg : ConvertConfig) (term : RegoValue) : Except String SqlNode :=
  match term with
  | .var _ => .error ("var not yet supported")
  | .ref ts =>
    if ts.length == 0 then .error ("empty ref not supported")
    else
      match cfg.VariableConverter with
      | none => .error ("no variable converter provided to handle variables")
      | some conv =>
        match conv ts with
        | some node => .ok node
        | none =>
          .error ("variable \"" ++ termString (.ref ts) ++
            "\" cannot be converted")
  | .str s => .ok (.str s)
  | .num n => .ok (.num (termString (.num n)) n)
  | .bool b => .ok (.bool b)
  | .array ts =>
    match convertArrayElems cfg (termString (.array ts)) 0 ts with
    | .error e => .error e
    | .ok elems => .ok (.array (termString (.array ts)) elems)
  | .object => .error ("object not yet supported")
  | .set ts => convertTerm cfg (.array (sortTerms ts))
  | .call op args => convertCall cfg op args
  | .other desc => .error (desc ++ " not yet supported")
termination_by rsize term
decreasing_by
  all_goals simp only [rsize, rsizeList, rsizeList_sortTerms]
  all_goals
    first
      | omega
      | (have hpos := rsize_pos op
         omega)

/-- convertCall converts a call (operator term plus argument terms),
dispatching on the operator's printed name exactly as the source's switch
does: the equality family converts both arguments and produces the Equality
node, negated for the inequality name; the membership primitive produces the
Membership node over its two converted arguments; any other operator name is
unsupported. The list shapes that convertTerms cannot return (it yields
exactly the expected number of nodes) are mapped to an error where the source
indexes unconditionally. -/
def convertCall (cfg : ConvertConfig) (op : RegoValue) (args : List RegoValue) :
    Except String SqlNode :=
  let opString := termString op
  if opString == "neq" || opString == "eq" || opString == "equals" ||
      opString == "equal" then
    match convertTerms cfg args 2 with
    | .error e => .error ("arguments: " ++ e)
    | .ok [a, b] =>
      let nt := opString == "neq" || opString == "notequals" ||
        opString == "notequal"
      .ok (.equality nt a b)
    | .ok _ => .error ("arguments: wrong count")
  else if opString == "internal.member_2" then
    match convertTerms cfg args 2 with
    | .error e => .error ("arguments: " ++ e)
    | .ok [a, b] => .ok (.memberOf a b)
    | .ok _ => .error ("arguments: wrong count")
  else .error ("operator " ++ opString ++ " not supported")
termination_by rsizeList args + 2
decreasing_by
  all_goals omega

/-- convertTerms converts an argument list after checking its length against
the expected count. -/
def convertTerms (cfg : ConvertConfig) (terms : List RegoValue) (expected : Nat) :
    Except String (List SqlNode) :=
  if terms.length != expected then
    .error ("expected " ++ toString expected ++ " terms, got " ++
      toString terms.length)
  else convertTermList cfg terms
termination_by rsizeList terms + 1
decreasing_by
  all_goals omega

/-- convertTermList is the conversion loop of convertTerms, wrapping each
element's failure. -/
def convertTermList (cfg : ConvertConfig) :
    List RegoValue → Except String (List SqlNode)
  | [] => .ok []
  | t :: ts =>
    match convertTerm cfg t with
    | .error e => .error ("term: " ++ e)
    | .ok v =>
      match convertTermList cfg ts with
      | .error e => .error e
      | .ok vs => .ok (v :: vs)
termination_by ts => rsizeList ts
decreasing_by
  all_goals simp only [rsizeList]
  all_goals omega

/-- convertArrayElems is the element loop of the array case of convertTerm,
wrapping each element's failure with its index and the printed array. -/
def convertArrayElems (cfg : ConvertConfig) (src : String) (i : Nat) :
    List RegoValue → Except String (List SqlNode)
  | [] => .ok []
  | t :: ts =>
    match convertTerm cfg t with
    | .error e =>
      .error ("array element " ++ toString i ++ " in \"" ++ src ++ "\": " ++ e)
    | .ok v =>
      match convertArrayElems cfg src (i + 1) ts with
      | .error e => .error e
      | .ok vs => .ok (v :: vs)
termination_by ts => rsizeList ts
decreasing_by
  all_goals simp only [rsizeList]
  all_goals omega
end

/-- RegoExpr is one expression of a residual query: a call (the source's
e.IsCall case, whose Terms hold the operator-first term list), a single term,
or any other terms shape, which the source rejects as unsupported. -/
inductive RegoExpr where
  | call (op : RegoValue) (args : List RegoValue)
  | term (t : RegoValue)
  | unsupported (desc : String)

/-- exprString prints an expression for diagnostics. Modelled from the spec:
printing belongs to the upstream engine. -/
def exprString : RegoExpr → String
  | .call op args => termString op ++ "(" ++ termStringList args ++ ")"
  | .term t => termString t
  | .unsupported desc => desc

/-- queryString prints a query, standing for the upstream Body.String, which
joins expressions with semicolons. Modelled from the spec: printing belongs
to the upstream engine. -/
def queryString (q : List RegoExpr) : String :=
  String.intercalate ("; ") (q.map exprString)

/-- convertExpression converts one expression: a call converts through
convertCall and its result must implement BooleanNode; a single term converts
through convertTerm and must likewise be boolean; any other shape is
unsupported. -/
def convertExpression (cfg : ConvertConfig) (e : RegoExpr) : Except String SqlNode :=
  match e with
  | .call op args =>
    match convertCall cfg op args with
    | .error err => .error ("call: " ++ err)
    | .ok n =>
      if isBooleanNode n then .ok n
      else .error ("call \"" ++ exprString e ++ "\": not a boolean expression")
  | .term t =>
    match convertTerm cfg t with
    | .error err => .error ("convert term " ++ termString t ++ ": " ++ err)
    | .ok ty =>
      if isBooleanNode ty then .ok ty
      else .error ("convert term " ++ termString t ++ " is not a boolean")
  | .unsupported desc => .error ("expression " ++ desc ++ " not supported")

/-- convertExprList is the expression loop of convertQuery, wrapping each
failure with the printed expression. -/
def convertExprList (cfg : ConvertConfig) :
    List RegoExpr → Except String (List SqlNode)
  | [] => .ok []
  | e :: es =>
    match convertExpression cfg e with
    | .error err => .error ("expression " ++ exprString e ++ ": " ++ err)
    | .ok n =>
      match convertExprList cfg es with
      | .error err => .error err
      | .ok ns => .ok (n :: ns)

/-- convertQuery converts a residual query to the conjunction of its
converted expressions, annotated with the printed query. -/
def convertQuery (cfg : ConvertConfig) (q : List RegoExpr) : Except String SqlNode :=
  match convertExprList cfg q with
  | .error e => .error e
  | .ok exps => .ok (.conj (queryString q) exps)

/-- PartialQueries is the compiler's input from the policy engine: the
residual query set. The support rules of the upstream result are not
consulted by ConvertRegoAst and are omitted. -/
structure PartialQueries where
  Queries : List (List RegoExpr)

/-- convertQueryList is the query loop of ConvertRegoAst: convert each query,
wrap failures with the printed query, and require each result to implement
BooleanNode. -/
def convertQueryList (cfg : ConvertConfig) :
    List (List RegoExpr) → Except String (List SqlNode)
  | [] => .ok []
  | q :: qs =>
    match convertQuery cfg q with
    | .error e => .error ("query " ++ queryString q ++ ": " ++ e)
    | .ok n =>
      if isBooleanNode n then
        match convertQueryList cfg qs with
        | .error e => .error e
        | .ok ns => .ok (n :: ns)
      else .error ("query " ++ queryString q ++ ": not a boolean expression")

/-- ConvertRegoAst is the top level: an empty residual query set compiles to
the literal false (always deny); a set containing any empty query compiles to
the literal true (always allow); otherwise every query is converted and the
results are combined with a disjunction annotated with the newline-joined
printed queries. -/
def ConvertRegoAst (cfg : ConvertConfig) (pq : PartialQueries) : Except String SqlNode :=
  if pq.Queries.length == 0 then .ok (.bool false)
  else if pq.Queries.any (fun q => q.length == 0) then .ok (.bool true)
  else
    match convertQueryList cfg pq.Queries with
    | .error e => .error e
    | .ok ns =>
      .ok (.disj (String.intercalate ("\n") (pq.Queries.map queryString)) ns)

/-- C1: for every partial query set whose sequence of queries is empty,
top-level compilation succeeds and returns exactly the boolean literal node
false, for every configuration — in particular the result does not depend on
the variable converter. -/
theorem convertRegoAst_empty_set_false (cfg : ConvertConfig)
    (pq : PartialQueries) (h : pq.Queries = []) :
    ConvertRegoAst cfg pq = .ok (.bool false) := by
  simp [ConvertRegoAst, h]

/-- Witness for C1 at the empty query set and the converter-free
configuration. -/
theorem convertRegoAst_empty_set_false_witness :
    ConvertRegoAst ⟨none⟩ ⟨[]⟩ = .ok (.bool false) :=
  convertRegoAst_empty_set_false ⟨none⟩ ⟨[]⟩ rfl

/-- C2: for every non-empty partial query set in which at least one query has
zero expressions, top-level compilation succeeds and returns exactly the
boolean literal node true. -/
theorem convertRegoAst_empty_query_true (cfg : ConvertConfig)
    (pq : PartialQueries) (hne : pq.Queries ≠ [])
    (h : ∃ q ∈ pq.Queries, q = []) :
    ConvertRegoAst cfg pq = .ok (.bool true) := by
  obtain ⟨q, hq, hq0⟩ := h
  have hlen : (pq.Queries.length == 0) = false := by
    simp [List.length_eq_zero]
    exact hne
  have hany : pq.Queries.any (fun q => q.length == 0) = true := by
    simp only [List.any_eq_true]
    refine ⟨q, hq, ?_⟩
    simp [hq0]
  simp [ConvertRegoAst, hlen, hany]

/-- Witness for C2 at a one-query set whose query is empty. -/
theorem convertRegoAst_empty_query_true_witness :
    ConvertRegoAst ⟨none⟩ ⟨[[]]⟩ = .ok (.bool true) :=
  convertRegoAst_empty_query_true ⟨none⟩ ⟨[[]]⟩ (by simp)
    ⟨[], by simp, rfl⟩

/-- C9: the empty-query check short-circuits conversion: for every partial
query set containing a query with zero expressions, top-level compilation
returns the literal true with no error, whatever the other queries contain —
the universally quantified set covers queries that could not be compiled. -/
theorem convertRegoAst_empty_query_shortcircuits (cfg : ConvertConfig)
    (pq : PartialQueries) (h : ∃ q ∈ pq.Queries, q = []) :
    ConvertRegoAst cfg pq = .ok (.bool true) := by
  obtain ⟨q, hq, hq0⟩ := h
  have hne : pq.Queries ≠ [] := by
    intro hc
    rw [hc] at hq
    exact (List.not_mem_nil q) hq
  have hlen : (pq.Queries.length == 0) = false := by
    simp [List.length_eq_zero]
    exact hne
  have hany : pq.Queries.any (fun q => q.length == 0) = true := by
    simp only [List.any_eq_true]
    refine ⟨q, hq, ?_⟩
    simp [hq0]
  simp [ConvertRegoAst, hlen, hany]

/-- Witness for C9: a set whose first query would fail conversion (a bare
variable term is unsupported) still compiles to true because the second query
is empty; the conjuncts also check that the offending query alone does fail. -/
theorem convertRegoAst_empty_query_shortcircuits_witness :
    ConvertRegoAst ⟨none⟩ ⟨[[.term (.var ("x"))], []]⟩ = .ok (.bool true)
    ∧ (convertQuery ⟨none⟩ [.term (.var ("x"))]).isOk = false :=
  ⟨convertRegoAst_empty_query_shortcircuits ⟨none⟩ ⟨[[.term (.var ("x"))], []]⟩
    ⟨[], by simp, rfl⟩,
    by simp [convertQuery, convertExprList, convertExpression, convertTerm,
      Except.isOk, Except.toBool]⟩

/-- C8: a set-valued term converts by first ordering the set's elements
deterministically and then converting the result as an array term, so a set
term and an array term holding the set's sorted elements convert to identical
nodes. -/
theorem convertTerm_set_sorted (cfg : ConvertConfig) (es : List RegoValue) :
    convertTerm cfg (.set es) = convertTerm cfg (.array (sortTerms es)) := by
  simp only [convertTerm]

/-- C10: equality resolution gives the left operand precedence — when the
left operand renders itself compared to the right, the rendered output is
exactly that left-order rendering (text and appended errors alike), whatever
the right operand is. -/
theorem equality_left_precedence (nt : Bool) (l r : SqlNode) (s : String)
    (es : List GenError) (h : EqualsSQLString l nt r = some (s, es)) :
    SQLString (.equality nt l r) = (s, es) := by
  simp [SQLString, h]

/-- Witness for C10 at two number literals, where both orders would be
resolvable and the left one is taken. -/
theorem equality_left_precedence_witness :
    SQLString (.equality false (.num ("s1") ("1")) (.num ("s2") ("2"))) =
      ("1 = 2", []) :=
  equality_left_precedence false (.num ("s1") ("1")) (.num ("s2") ("2"))
    ("1 = 2") [] (by simp [EqualsSQLString, UseAs, basicSQLEquality, SQLString,
      equalsOp])

/-- C4: rendering an equality node is a total function (the embedding returns
a result in every case, mirroring the source, which never unwinds the call
stack): the left order is tried first, the swapped order second, and when
neither succeeds the structured error naming the operands' Go type names and
the operator is appended to the generation context while the sentinel
"EqualityError" is returned. -/
theorem equality_resolution_order (nt : Bool) (l r : SqlNode)
    (cfg : SQLGenerator) :
    (∀ s es, EqualsSQLString l nt r = some (s, es) →
      SQLStringWith (.equality nt l r) cfg = (s, ⟨cfg.errors ++ es⟩))
    ∧ (∀ s es, EqualsSQLString l nt r = none →
      EqualsSQLString r nt l = some (s, es) →
      SQLStringWith (.equality nt l r) cfg = (s, ⟨cfg.errors ++ es⟩))
    ∧ (EqualsSQLString l nt r = none → EqualsSQLString r nt l = none →
      SQLStringWith (.equality nt l r) cfg = (("EqualityError"),
        cfg.AddError ⟨kindName l, equalsOp nt, kindName r⟩)) := by
  refine ⟨?_, ?_, ?_⟩ <;> intros <;>
    simp [SQLStringWith, SQLString, SQLGenerator.AddError, *]

/-- Witness for C4 at a number compared to a boolean, a pair neither operand
can render: the error names both concrete kinds and the operator. -/
theorem equality_resolution_order_witness :
    SQLStringWith (.equality false (.num ("s1") ("1")) (.bool true)) ⟨[]⟩ =
      (("EqualityError"),
        ⟨[⟨("sqlast.AstNumber"), ("="), ("sqlast.AstBoolean")⟩]⟩) := by
  have h := (equality_resolution_order false (.num ("s1") ("1")) (.bool true)
    ⟨[]⟩).2.2 (by simp [EqualsSQLString, UseAs]) (by simp [EqualsSQLString])
  simpa [SQLGenerator.AddError, kindName, equalsOp] using h

/-- C6: a variable-reference term always yields a compilation error — never a
best-effort guess — when it cannot be resolved: when the reference is empty,
when no variable converter was configured, or when the configured converter
declines the path. -/
theorem convertTerm_ref_unresolvable (cfg : ConvertConfig)
    (ts : List RegoValue)
    (h : ts = [] ∨ cfg.VariableConverter = none ∨
      ∃ f, cfg.VariableConverter = some f ∧ f ts = none) :
    (convertTerm cfg (.ref ts)).isOk = false := by
  rcases h with h | h | ⟨f, hf, hnone⟩
  · simp [convertTerm, h, Except.isOk, Except.toBool]
  · by_cases hl : (ts.length == 0) = true <;>
      simp [convertTerm, h, hl, Except.isOk, Except.toBool]
  · by_cases hl : (ts.length == 0) = true <;>
      simp [convertTerm, hf, hnone, hl, Except.isOk, Except.toBool]

/-- Witness for C6: a configured converter that declines every path yields an
error for a non-empty reference. -/
theorem convertTerm_ref_unresolvable_witness :
    (convertTerm ⟨some (fun _ => none)⟩ (.ref [.var ("input")])).isOk = false :=
  convertTerm_ref_unresolvable ⟨some (fun _ => none)⟩ [.var ("input")]
    (Or.inr (Or.inr ⟨fun _ => none, rfl, rfl⟩))

/-- C7: a bare single term converts only to a boolean-kind node: success of
convertExpression on a term implies the term converted and its node is
boolean-kind; a term converting to a non-boolean node makes the expression an
error, and likewise a call whose converted node is not boolean-kind. -/
theorem convertExpression_boolean_only (cfg : ConvertConfig) (t : RegoValue) :
    (∀ n, convertExpression cfg (.term t) = .ok n →
      convertTerm cfg t = .ok n ∧ isBooleanNode n = true)
    ∧ (∀ n, convertTerm cfg t = .ok n → isBooleanNode n = false →
      (convertExpression cfg (.term t)).isOk = false)
    ∧ (∀ op args n, convertCall cfg op args = .ok n → isBooleanNode n = false →
      (convertExpression cfg (.call op args)).isOk = false) := by
  refine ⟨?_, ?_, ?_⟩
  · intro n h
    rcases hct : convertTerm cfg t with e | m
    · simp [convertExpression, hct] at h
    · by_cases hb : isBooleanNode m = true
      · simp only [convertExpression, hct, hb, if_true] at h
        have hmn : m = n := by simpa using h
        subst hmn
        exact ⟨rfl, hb⟩
      · simp [convertExpression, hct, hb] at h
  · intro n h hb
    simp [convertExpression, h, hb, Except.isOk, Except.toBool]
  · intro op args n h hb
    simp [convertExpression, h, hb, Except.isOk, Except.toBool]

/-- Witness for C7: a bare string literal term converts to a non-boolean
node and the expression is rejected. -/
theorem convertExpression_boolean_only_witness :
    (convertExpression ⟨none⟩ (.term (.str ("x")))).isOk = false :=
  (convertExpression_boolean_only ⟨none⟩ (.str ("x"))).2.1 (.str ("x"))
    (by simp [convertTerm]) (by simp [isBooleanNode])

/-- C3: convertCall dispatches on the operator's printed name: the four
equality names with two convertible arguments produce the Equality node over
the converted operands, negated exactly for the inequality name; the
membership primitive with two convertible arguments produces the Membership
node; an argument count other than two, or any other operator name, is an
error — no sentinel node and no partial result. -/
theorem convertCall_operator_dispatch (cfg : ConvertConfig) (op : RegoValue)
    (args : List RegoValue) :
    (∀ a b, convertTerms cfg args 2 = .ok [a, b] →
      ((termString op = "eq" ∨ termString op = "equals" ∨
          termString op = "equal") →
        convertCall cfg op args = .ok (.equality false a b))
      ∧ (termString op = "neq" →
        convertCall cfg op args = .ok (.equality true a b))
      ∧ (termString op = "internal.member_2" →
        convertCall cfg op args = .ok (.memberOf a b)))
    ∧ (args.length ≠ 2 → (convertCall cfg op args).isOk = false)
    ∧ (termString op ≠ "neq" → termString op ≠ "eq" →
      termString op ≠ "equals" → termString op ≠ "equal" →
      termString op ≠ "internal.member_2" →
      (convertCall cfg op args).isOk = false) := by
  refine ⟨?_, ?_, ?_⟩
  · intro a b hab
    refine ⟨?_, ?_, ?_⟩
    · intro hop
      rcases hop with hop | hop | hop <;> simp [convertCall, hop, hab]
    · intro hop
      simp [convertCall, hop, hab]
    · intro hop
      simp [convertCall, hop, hab]
  · intro hlen
    have hb : (args.length != 2) = true := by simpa [bne_iff_ne] using hlen
    have h2 : convertTerms cfg args 2 = .error ("expected " ++ toString 2 ++
        " terms, got " ++ toString args.length) := by
      simp [convertTerms, hb]
    by_cases c1 : (termString op == "neq" || termString op == "eq" ||
        termString op == "equals" || termString op == "equal") = true <;>
      by_cases c2 : (termString op == "internal.member_2") = true <;>
        simp [convertCall, c1, c2, h2, Except.isOk, Except.toBool]
  · intro h1 h2 h3 h4 h5
    simp [convertCall, h1, h2, h3, h4, h5, Except.isOk, Except.toBool]

/-- Witness for C3: the eq operator over two number literals produces the
non-negated Equality node over the converted operands. -/
theorem convertCall_operator_dispatch_witness :
    convertCall ⟨none⟩ (.var ("eq")) [.num ("1"), .num ("2")] =
      .ok (.equality false (.num ("1") ("1")) (.num ("2") ("2"))) :=
  (((convertCall_operator_dispatch ⟨none⟩ (.var ("eq"))
      [.num ("1"), .num ("2")]).1 (.num ("1") ("1")) (.num ("2") ("2"))
    (by simp [convertTerms, convertTermList, convertTerm, termString])).1
    (Or.inl (by simp [termString])))

/-- useAs_numKind: the number kind is declared only by number nodes. -/
theorem useAs_numKind (y : SqlNode) : UseAs y = .numKind ↔ ∃ s v, y = .num s v := by
  cases y <;> (simp [UseAs]; try (split <;> simp_all))

/-- equalsSQLString_isSome characterizes when one resolution order is
resolvable: the receiver is a number and the other operand declares the
number kind, or the receiver is an equality and the other operand's kind is
boolean-valued. -/
theorem equalsSQLString_isSome (x : SqlNode) (nt : Bool) (y : SqlNode) :
    (EqualsSQLString x nt y).isSome = true ↔
    ((∃ s v, x = .num s v) ∧ UseAs y = .numKind) ∨
    ((∃ n l r, x = .equality n l r) ∧ (UseAs y).isBooleanNode = true) := by
  cases x <;> rcases hk : UseAs y <;>
    simp [EqualsSQLString.eq_def, hk, NodeKind.isBooleanNode]

/-- C5: equality is operand-order independent: whenever both resolution
orders are resolvable, rendering the node and rendering the operand-swapped
node produce the same normalized comparison — the same operator between the
same two rendered operand texts, possibly with the two sides exchanged. -/
theorem equality_order_independent (nt : Bool) (a b : SqlNode)
    (ha : (EqualsSQLString a nt b).isSome = true)
    (hb : (EqualsSQLString b nt a).isSome = true) :
    ∃ x y,
      (SQLString (.equality nt a b)).1 = x ++ " " ++ equalsOp nt ++ " " ++ y
      ∧ ((SQLString (.equality nt b a)).1 = x ++ " " ++ equalsOp nt ++ " " ++ y
        ∨ (SQLString (.equality nt b a)).1 =
          y ++ " " ++ equalsOp nt ++ " " ++ x) := by
  rw [equalsSQLString_isSome] at ha hb
  rcases ha with ⟨⟨sa, va, rfl⟩, hkb⟩ | ⟨⟨n1, l1, r1, rfl⟩, hkb⟩
  · obtain ⟨sb, vb, rfl⟩ := (useAs_numKind b).mp hkb
    refine ⟨va, vb, ?_, Or.inr ?_⟩ <;>
      simp [SQLString, EqualsSQLString, UseAs, basicSQLEquality]
  · rcases hb with ⟨⟨sb, vb, rfl⟩, hka⟩ | ⟨⟨n2, l2, r2, rfl⟩, hka⟩
    · simp [UseAs] at hka
    · refine ⟨("(" ++ (SQLString (.equality n1 l1 r1)).1 ++ ")"),
        ("(" ++ (SQLString (.equality n2 l2 r2)).1 ++ ")"), ?_, Or.inr ?_⟩ <;>
        simp [SQLString, EqualsSQLString, UseAs, NodeKind.isBooleanNode]

/-- Witness for C5 at two number literals, where both orders resolve. -/
theorem equality_order_independent_witness :
    ∃ x y,
      (SQLString (.equality false (.num ("s1") ("1")) (.num ("s2") ("2")))).1 =
        x ++ " " ++ equalsOp false ++ " " ++ y
      ∧ ((SQLString (.equality false (.num ("s2") ("2"))
            (.num ("s1") ("1")))).1 = x ++ " " ++ equalsOp false ++ " " ++ y
        ∨ (SQLString (.equality false (.num ("s2") ("2"))
            (.num ("s1") ("1")))).1 = y ++ " " ++ equalsOp false ++ " " ++ x) :=
  equality_order_independent false (.num ("s1") ("1")) (.num ("s2") ("2"))
    (by simp [EqualsSQLString, UseAs]) (by simp [EqualsSQLString, UseAs])
